import Mathlib

/-!
# Verification of the kid-backend credential and reset-challenge lifecycle

Shallow embedding of `src/server.js` (Express + MySQL backend): the
register/login endpoints and the three-step OTP password-reset protocol
(`/api/auth/forgot-password`, `/api/auth/verify-reset-otp`,
`/api/auth/reset-password`), plus the legacy login router found in
`src/unnamed/part_000`.

Modelling conventions:
* The MySQL `users` table is a list of `User` rows plus an auto-increment
  counter; `SELECT ... WHERE email = ?` is `List.find?`, `UPDATE ... WHERE
  email = ?` maps an update over every matching row.
* bcrypt hashing is idealized: `bcryptHash` is an injective tagging function
  and `bcryptCompare s h` holds exactly when `h` is the hash of `s`
  (bcrypt's contract: verification succeeds exactly for the hashed secret;
  salting and cost are irrelevant to the control flow being verified).
* Request bodies are JSON values (`JsValue`, with `jsUndefined` for an absent
  field); `String(x || "")` from the JS source is `coerceOr`.
* The wall clock (`Date.now()`) and the random draw inside `generateOtp6`
  (`Math.random()`) are oracle inputs threaded as explicit arguments.
* Each handler is a pure function from the database and the request body to
  a response (`Resp`) and the updated database.
-/

/-- A JSON-ish JavaScript value as it can appear in an `express.json()`
request body; `jsUndefined` stands for a missing field. -/
inductive JsValue where
  | jsUndefined : JsValue
  | null : JsValue
  | bool (b : Bool) : JsValue
  | num (n : Int) : JsValue
  | str (s : String) : JsValue
  | arr (xs : List JsValue) : JsValue
  | obj : JsValue

/-- JavaScript truthiness of a request-body value. -/
def jsTruthy : JsValue → Bool
  | .jsUndefined => false
  | .null => false
  | .bool b => b
  | .num n => n != 0
  | .str s => s != ""
  | .arr _ => true
  | .obj => true

mutual

/-- JavaScript `String(v)` on a request-body value (array elements joined
with commas, objects printed as `[object Object]`). -/
def jsToString : JsValue → String
  | .jsUndefined => "undefined"
  | .null => "null"
  | .bool b => if b then "true" else "false"
  | .num n => toString n
  | .str s => s
  | .arr xs => String.intercalate "," (jsToStringList xs)
  | .obj => "[object Object]"

/-- Stringification of the elements of a JavaScript array. -/
def jsToStringList : List JsValue → List String
  | [] => []
  | v :: vs => jsToString v :: jsToStringList vs

end

/-- The idiom `String(v || "")` used by every endpoint to coerce a
request-body field to a string: a falsy value becomes `""`. -/
def coerceOr (v : JsValue) : String :=
  if jsTruthy v then jsToString v else ""

/-- JavaScript `String.prototype.toLowerCase` (character-wise). -/
def jsLower (s : String) : String :=
  ⟨s.data.map Char.toLower⟩

/-- JavaScript `String.prototype.trim`: strip leading and trailing
whitespace. -/
def jsTrim (s : String) : String :=
  ⟨((s.data.dropWhile Char.isWhitespace).reverse.dropWhile
      Char.isWhitespace).reverse⟩

/-- Email normalization `String(email || "").trim().toLowerCase()`. -/
def normEmail (v : JsValue) : String :=
  jsLower (jsTrim (coerceOr v))

/-- A request body with the four fields the handlers read
(absent fields are `jsUndefined`). -/
structure ReqBody where
  email : JsValue := .jsUndefined
  password : JsValue := .jsUndefined
  otp : JsValue := .jsUndefined
  newPassword : JsValue := .jsUndefined

/-- A row of the `users` table:
`id, email (unique), password_hash, reset_otp_hash (nullable),
reset_otp_expires (nullable, ms timestamp), reset_otp_attempts`. -/
structure User where
  id : Nat
  email : String
  password_hash : String
  reset_otp_hash : Option String := none
  reset_otp_expires : Option Nat := none
  reset_otp_attempts : Nat := 0
deriving DecidableEq, Repr

/-- The database: the `users` table rows in insertion order, plus the
auto-increment counter supplying the next `id`. -/
structure DB where
  users : List User
  nextId : Nat
deriving DecidableEq, Repr

/-- `SELECT ... FROM users WHERE email = ?` (first matching row). -/
def findByEmail (db : DB) (e : String) : Option User :=
  db.users.find? (fun u => u.email == e)

/-- `UPDATE users SET ... WHERE email = ?`: apply `f` to every row whose
email matches. -/
def updateWhere (db : DB) (e : String) (f : User → User) : DB :=
  { db with users := db.users.map (fun u => if u.email == e then f u else u) }

/-- Idealized bcrypt hash (injective tag; bcrypt.hash(s, 10)). -/
def bcryptHash (s : String) : String :=
  "bc$10$" ++ s

/-- Idealized bcrypt.compare: succeeds exactly when the stored value is the
hash of the candidate. -/
def bcryptCompare (s h : String) : Bool :=
  bcryptHash s == h

/-- A JSON response from a handler. `ok`/`err` are `{success:true/false,
message}`; `okUser` is login's `{success:true, user:{id, email}}`; `sfault`
is a `res.status(500)` body. -/
inductive Resp where
  | ok (message : String) : Resp
  | okUser (id : Nat) (email : String) : Resp
  | err (message : String) : Resp
  | sfault (message : String) : Resp
deriving DecidableEq, Repr

/-- Whether the response reports `success: true`. -/
def Resp.isSuccess : Resp → Bool
  | .ok _ => true
  | .okUser _ _ => true
  | .err _ => false
  | .sfault _ => false

/-- `POST /api/register` (src/server.js lines 72–104). -/
def register (db : DB) (body : ReqBody) : Resp × DB :=
  let emailLower := normEmail body.email
  let pass := coerceOr body.password
  if emailLower = "" ∨ pass = "" then
    (.err "Email & password required", db)
  else if pass.length < 6 then
    (.err "Password must be at least 6 characters", db)
  else
    match findByEmail db emailLower with
    | some _ => (.err "Email already exists", db)
    | none =>
        let hash := bcryptHash pass
        (.ok "Account created",
         { users := db.users ++ [{ id := db.nextId, email := emailLower,
                                   password_hash := hash }],
           nextId := db.nextId + 1 })

/-- `POST /api/login` (src/server.js lines 107–139). -/
def login (db : DB) (body : ReqBody) : Resp × DB :=
  let emailLower := normEmail body.email
  let pass := coerceOr body.password
  if emailLower = "" ∨ pass = "" then
    (.err "Email & password required", db)
  else
    match findByEmail db emailLower with
    | none => (.err "User not found. Please Sign Up.", db)
    | some user =>
        if bcryptCompare pass user.password_hash then
          (.okUser user.id user.email, db)
        else
          (.err "Wrong password", db)

/-- `generateOtp6` (src/server.js lines 149–151):
`String(Math.floor(100000 + Math.random() * 900000))`. The draw
`Math.floor(Math.random() * 900000) ∈ [0, 900000)` is the oracle input `k`
(reduced mod 900000 to make the function total on `Nat`). -/
def otpValue (k : Nat) : Nat :=
  100000 + k % 900000

/-- The generated 6-digit OTP string. -/
def generateOtp6 (k : Nat) : String :=
  toString (otpValue k)

/-- `POST /api/auth/forgot-password` (src/server.js lines 188–223).
`otp` is the value returned by `generateOtp6()` (randomness as oracle
input), `now` is `Date.now()`, `smtpOk` models `SMTP_USER`/`SMTP_PASS`
being configured, and `deliveryOk` models `sendOtpEmail` not throwing
(a throw is caught and answered with the 500 handler-error body; the
challenge row update has already been committed at that point). -/
def forgotPassword (db : DB) (body : ReqBody) (now : Nat) (otp : String)
    (smtpOk deliveryOk : Bool) : Resp × DB :=
  let emailLower := normEmail body.email
  if emailLower = "" then
    (.err "Email required", db)
  else
    match findByEmail db emailLower with
    | none => (.ok "If email exists, OTP sent.", db)
    | some _ =>
        if ¬ smtpOk then
          (.sfault "SMTP not configured. Add SMTP_USER & SMTP_PASS in .env", db)
        else
          let otpHash := bcryptHash otp
          let expires := now + 5 * 60 * 1000
          let db1 := updateWhere db emailLower (fun u =>
            { u with reset_otp_hash := some otpHash,
                     reset_otp_expires := some expires,
                     reset_otp_attempts := 0 })
          if deliveryOk then
            (.ok "OTP sent to your email.", db1)
          else
            (.sfault "Server error (forgot-password)", db1)

/-- `POST /api/auth/verify-reset-otp` (src/server.js lines 226–270). -/
def verifyResetOtp (db : DB) (body : ReqBody) (now : Nat) : Resp × DB :=
  let emailLower := normEmail body.email
  let otp := jsTrim (coerceOr body.otp)
  if emailLower = "" ∨ otp = "" then
    (.err "Email & OTP required", db)
  else
    match findByEmail db emailLower with
    | none => (.err "User not found", db)
    | some user =>
        match user.reset_otp_hash, user.reset_otp_expires with
        | some otpHash, some expires =>
            if expires < now then
              (.err "OTP expired. Request again.", db)
            else if 5 ≤ user.reset_otp_attempts then
              (.err "Too many attempts. Request new OTP.", db)
            else
              let ok := bcryptCompare otp otpHash
              let db1 := updateWhere db emailLower (fun u =>
                { u with reset_otp_attempts := u.reset_otp_attempts + 1 })
              if ok then (.ok "OTP verified.", db1)
              else (.err "Invalid OTP.", db1)
        | _, _ => (.err "OTP not requested.", db)

/-- `POST /api/auth/reset-password` (src/server.js lines 273–315).
Note: unlike `verifyResetOtp`, the source performs no
`reset_otp_attempts` check and no increment on this endpoint. -/
def resetPassword (db : DB) (body : ReqBody) (now : Nat) : Resp × DB :=
  let emailLower := normEmail body.email
  let otp := jsTrim (coerceOr body.otp)
  let newPassword := coerceOr body.newPassword
  if emailLower = "" ∨ otp = "" ∨ newPassword = "" then
    (.err "Email, OTP, newPassword required", db)
  else
    match findByEmail db emailLower with
    | none => (.err "User not found", db)
    | some user =>
        match user.reset_otp_hash, user.reset_otp_expires with
        | some otpHash, some expires =>
            if expires < now then
              (.err "OTP expired. Request again.", db)
            else if ¬ bcryptCompare otp otpHash then
              (.err "Invalid OTP.", db)
            else
              let hash := bcryptHash newPassword
              let db1 := updateWhere db emailLower (fun u =>
                { u with password_hash := hash,
                         reset_otp_hash := none,
                         reset_otp_expires := none,
                         reset_otp_attempts := 0 })
              (.ok "Password updated successfully.", db1)
        | _, _ => (.err "OTP not requested.", db)

/-- A row of the `users` table as the legacy router in
`src/unnamed/part_000` uses it: a plaintext `password` column. -/
structure LegacyUser where
  id : Nat
  email : String
  password : String
deriving DecidableEq, Repr

/-- The legacy router response: `okRow` returns the entire user row
(`result[0]`). -/
inductive LegacyResp where
  | okRow (user : LegacyUser) : LegacyResp
  | invalid : LegacyResp
deriving DecidableEq, Repr

/-- `router.post("/login")` from `src/unnamed/part_000`:
`SELECT * FROM users WHERE email = ? AND password = ?`, answering 401 on no
match and `{message, user: result[0]}` on a match. -/
def legacyLogin (rows : List LegacyUser) (email password : String) :
    LegacyResp :=
  match rows.filter (fun u => u.email == email && u.password == password) with
  | [] => .invalid
  | u :: _ => .okRow u

/-! ## Helper lemmas -/

@[simp]
theorem coerceOr_str (s : String) : coerceOr (.str s) = s := by
  by_cases h : s = "" <;> simp [coerceOr, jsTruthy, jsToString, h]

theorem normEmail_str (s : String) : normEmail (.str s) = jsLower (jsTrim s) := by
  simp [normEmail]

theorem bcryptHash_inj {a b : String} (h : bcryptHash a = bcryptHash b) :
    a = b := by
  unfold bcryptHash at h
  apply String.ext
  have h2 := congrArg String.data h
  rw [String.data_append, String.data_append] at h2
  exact List.append_cancel_left h2

theorem bcryptCompare_hash_self (s : String) :
    bcryptCompare s (bcryptHash s) = true := by
  simp [bcryptCompare]

theorem bcryptCompare_hash_ne {a b : String} (h : a ≠ b) :
    bcryptCompare a (bcryptHash b) = false := by
  simp only [bcryptCompare, beq_eq_false_iff_ne, ne_eq]
  intro hc
  exact h (bcryptHash_inj hc)

/-- The attempts-increment row update performed by `verifyResetOtp`. -/
def incAttempt (u : User) : User :=
  { u with reset_otp_attempts := u.reset_otp_attempts + 1 }

theorem findByEmail_updateWhere (db : DB) (e : String) (f : User → User)
    (hpres : ∀ v, (f v).email = v.email) (e2 : String) :
    findByEmail (updateWhere db e f) e2 =
      (findByEmail db e2).map (fun u => if u.email == e then f u else u) := by
  unfold findByEmail updateWhere
  rw [List.find?_map]
  have hfun : ((fun u : User => u.email == e2) ∘
      fun u => if u.email == e then f u else u) =
      (fun u : User => u.email == e2) := by
    funext v
    by_cases h : v.email = e <;> simp [h, hpres]
  rw [hfun]

theorem findByEmail_updateWhere_self {db : DB} {e : String} {u : User}
    (f : User → User) (hpres : ∀ v, (f v).email = v.email)
    (hf : findByEmail db e = some u) :
    findByEmail (updateWhere db e f) e = some (f u) := by
  rw [findByEmail_updateWhere db e f hpres e, hf]
  have hf2 : db.users.find? (fun v => v.email == e) = some u := hf
  have hmail := List.find?_some hf2
  simp at hmail
  simp [hmail]

/-- Request body used for `POST /api/auth/verify-reset-otp` with string
fields. -/
def vbody (e c : String) : ReqBody :=
  { email := .str e, otp := .str c }

/-- One `verify-reset-otp` call, keeping only the database it leaves
behind. -/
def verifyStep (e c : String) (now : Nat) (db : DB) : DB :=
  (verifyResetOtp db (vbody e c) now).2

/-- Characterization of `verifyResetOtp` on an account with a pending,
unexpired challenge: the exhaustion check fires first, otherwise the
candidate is compared and the attempt counter incremented in either
outcome. -/
theorem verify_pending {db : DB} {u : User} (e c oh : String) (exp now : Nat)
    (he : e ≠ "") (hen : jsLower (jsTrim e) = e)
    (hc : jsTrim c = c) (hcn : c ≠ "")
    (hf : findByEmail db e = some u)
    (hh : u.reset_otp_hash = some oh)
    (hx : u.reset_otp_expires = some exp)
    (hexp : ¬ exp < now) :
    verifyResetOtp db (vbody e c) now =
      if 5 ≤ u.reset_otp_attempts then
        (.err "Too many attempts. Request new OTP.", db)
      else
        ((if bcryptCompare c oh then .ok "OTP verified."
          else .err "Invalid OTP."),
         updateWhere db e incAttempt) := by
  unfold verifyResetOtp vbody
  simp only [coerceOr_str, normEmail_str, hen, hc]
  rw [if_neg (by simp [he, hcn])]
  rw [hf]
  simp only [hh, hx]
  rw [if_neg hexp]
  by_cases ha : 5 ≤ u.reset_otp_attempts
  · rw [if_pos ha, if_pos ha]
  · rw [if_neg ha, if_neg ha]
    unfold incAttempt
    by_cases hok : bcryptCompare c oh = true <;> simp [hok]

/-- Request body for `POST /api/auth/reset-password` with string fields. -/
def rbody (e c np : String) : ReqBody :=
  { email := .str e, otp := .str c, newPassword := .str np }

/-- Request body for `POST /api/register` / `POST /api/login`. -/
def cbody (e pw : String) : ReqBody :=
  { email := .str e, password := .str pw }

/-- The row update performed by a successful `reset-password`: new hash,
challenge cleared. -/
def commitUpd (h : String) (u : User) : User :=
  { u with password_hash := h, reset_otp_hash := none,
           reset_otp_expires := none, reset_otp_attempts := 0 }

/-- The row update performed by `forgot-password`: fresh challenge,
attempts zeroed. -/
def issueUpd (h : String) (t : Nat) (u : User) : User :=
  { u with reset_otp_hash := some h, reset_otp_expires := some t,
           reset_otp_attempts := 0 }

/-- `verifyResetOtp` answers `OTP not requested.` (and leaves the database
untouched) when the found account has no stored challenge hash. -/
theorem verify_nochallenge {db : DB} {u : User} (e c : String) (now : Nat)
    (he : e ≠ "") (hen : jsLower (jsTrim e) = e)
    (hc : jsTrim c = c) (hcn : c ≠ "")
    (hf : findByEmail db e = some u)
    (hh : u.reset_otp_hash = none) :
    verifyResetOtp db (vbody e c) now = (.err "OTP not requested.", db) := by
  unfold verifyResetOtp vbody
  simp only [coerceOr_str, normEmail_str, hen, hc]
  rw [if_neg (by simp [he, hcn])]
  rw [hf]
  simp only [hh]

/-- A successful `reset-password` on a pending, unexpired challenge with
the correct OTP: it rewrites the password hash and clears the challenge in
one update. -/
theorem reset_commit {db : DB} {u : User} (e c np oh : String) (exp now : Nat)
    (he : e ≠ "") (hen : jsLower (jsTrim e) = e)
    (hc : jsTrim c = c) (hcn : c ≠ "") (hnp : np ≠ "")
    (hf : findByEmail db e = some u)
    (hh : u.reset_otp_hash = some oh)
    (hx : u.reset_otp_expires = some exp)
    (hexp : ¬ exp < now)
    (hok : bcryptCompare c oh = true) :
    resetPassword db (rbody e c np) now =
      (.ok "Password updated successfully.",
       updateWhere db e (commitUpd (bcryptHash np))) := by
  unfold resetPassword rbody
  simp only [coerceOr_str, normEmail_str, hen, hc]
  rw [if_neg (by simp [he, hcn, hnp])]
  rw [hf]
  simp only [hh, hx]
  rw [if_neg hexp]
  rw [if_neg (by simp [hok])]
  unfold commitUpd
  rfl

/-- `login` on an existing account (keyed by the normalized form of the
submitted email): compares the submitted password to the stored hash and
returns only the id and email on success. -/
theorem login_found {db : DB} {u : User} (rawE pw : String)
    (he : jsLower (jsTrim rawE) ≠ "") (hpw : pw ≠ "")
    (hf : findByEmail db (jsLower (jsTrim rawE)) = some u) :
    login db (cbody rawE pw) =
      ((if bcryptCompare pw u.password_hash then .okUser u.id u.email
        else .err "Wrong password"), db) := by
  unfold login cbody
  simp only [coerceOr_str, normEmail_str]
  rw [if_neg (by simp [he, hpw])]
  rw [hf]
  by_cases hok : bcryptCompare pw u.password_hash = true <;> simp [hok]

/-- `forgot-password` on an existing account with SMTP configured and a
successful delivery: generic success plus a fresh challenge row. -/
theorem forgot_found {db : DB} {u : User} (e otp : String) (now : Nat)
    (he : e ≠ "") (hen : jsLower (jsTrim e) = e)
    (hf : findByEmail db e = some u) :
    forgotPassword db { email := .str e } now otp true true =
      (.ok "OTP sent to your email.",
       updateWhere db e (issueUpd (bcryptHash otp) (now + 5 * 60 * 1000))) := by
  unfold forgotPassword
  simp only [coerceOr_str, normEmail_str, hen]
  rw [if_neg he]
  rw [hf]
  unfold issueUpd
  rfl

/-- `forgot-password` on an unknown email: generic success, database
untouched. -/
theorem forgot_notfound {db : DB} (e otp : String) (now : Nat)
    (smtpOk deliveryOk : Bool)
    (he : e ≠ "") (hen : jsLower (jsTrim e) = e)
    (hf : findByEmail db e = none) :
    forgotPassword db { email := .str e } now otp smtpOk deliveryOk =
      (.ok "If email exists, OTP sent.", db) := by
  unfold forgotPassword
  simp only [coerceOr_str, normEmail_str, hen]
  rw [if_neg he]
  rw [hf]

/-- `register` on a fresh, valid email/password: inserts the row, keyed by
the normalized email, with the next auto-increment id and the password
hash. -/
theorem register_new {db : DB} (rawE pw : String)
    (he : jsLower (jsTrim rawE) ≠ "")
    (hp : 6 ≤ pw.length)
    (hf : findByEmail db (jsLower (jsTrim rawE)) = none) :
    register db (cbody rawE pw) =
      (.ok "Account created",
       { users := db.users ++ [{ id := db.nextId,
                                 email := jsLower (jsTrim rawE),
                                 password_hash := bcryptHash pw }],
         nextId := db.nextId + 1 }) := by
  have hpw : pw ≠ "" := by
    intro h
    rw [h] at hp
    simp at hp
  unfold register cbody
  simp only [coerceOr_str, normEmail_str]
  rw [if_neg (by simp [he, hpw])]
  rw [if_neg (by omega)]
  rw [hf]

/-- `find?` over a snoc when the prefix has no match. -/
theorem find?_snoc_of_none {l : List User} {e : String}
    (hn : l.find? (fun v => v.email == e) = none) (u : User) :
    (l ++ [u]).find? (fun v => v.email == e) =
      if u.email == e then some u else none := by
  rw [List.find?_append, hn]
  cases hbe : u.email == e
  · have h2 : ¬ u.email = e := by simpa using hbe
    simp [List.find?, hbe, h2]
  · have h2 : u.email = e := by simpa using hbe
    simp [List.find?, hbe, h2]

/-- `verifyResetOtp` on a pending challenge whose expiry has passed:
`Expired`, and the database (in particular the attempts counter) is left
untouched. -/
theorem verify_expired {db : DB} {u : User} (e c oh : String) (exp now : Nat)
    (he : e ≠ "") (hen : jsLower (jsTrim e) = e)
    (hc : jsTrim c = c) (hcn : c ≠ "")
    (hf : findByEmail db e = some u)
    (hh : u.reset_otp_hash = some oh)
    (hx : u.reset_otp_expires = some exp)
    (hlt : exp < now) :
    verifyResetOtp db (vbody e c) now =
      (.err "OTP expired. Request again.", db) := by
  unfold verifyResetOtp vbody
  simp only [coerceOr_str, normEmail_str, hen, hc]
  rw [if_neg (by simp [he, hcn])]
  rw [hf]
  simp only [hh, hx]
  rw [if_pos hlt]

/-- Sample account row: password `oldpw1`, pending reset challenge for the
code `123456` expiring at t = 1000, with the given attempts count. -/
def sampleUser (attempts : Nat) : User :=
  { id := 1, email := "a@x.com", password_hash := bcryptHash "oldpw1",
    reset_otp_hash := some (bcryptHash "123456"),
    reset_otp_expires := some 1000, reset_otp_attempts := attempts }

/-- One-row database holding `sampleUser attempts`. -/
def sampleDB (attempts : Nat) : DB :=
  { users := [sampleUser attempts], nextId := 2 }

/-- C1: the spec requires the verify-side attempt ceiling
(`attempts >= 5` ⟹ `Exhausted`) to gate `POST /api/auth/reset-password` as
well; the handler performs no attempts check. At the same state
(`reset_otp_attempts = 5`, correct unexpired OTP) `verify-reset-otp`
answers `Exhausted` while `reset-password` succeeds and rewrites the
password — the ceiling does not gate commit. -/
theorem C1_commit_not_gated_by_ceiling :
    resetPassword (sampleDB 5) (rbody "a@x.com" "123456" "newpw9") 500 =
      (.ok "Password updated successfully.",
       { users := [{ id := 1, email := "a@x.com",
                     password_hash := bcryptHash "newpw9",
                     reset_otp_hash := none, reset_otp_expires := none,
                     reset_otp_attempts := 0 }], nextId := 2 }) ∧
    (verifyResetOtp (sampleDB 5) (vbody "a@x.com" "123456") 500).1 =
      .err "Too many attempts. Request new OTP." := by
  decide

/-- C2: the two `forgot-password` responses are NOT the identical generic
payload: for an existing account the message is `OTP sent to your email.`,
for an unknown email it is `If email exists, OTP sent.`, so the response
body distinguishes whether the email exists. -/
theorem C2_counterexample_responses_differ :
    (forgotPassword
      { users := [{ id := 1, email := "b@x.com",
                    password_hash := bcryptHash "pw1234" }], nextId := 2 }
      { email := .str "b@x.com" } 0 "123456" true true).1 =
      .ok "OTP sent to your email." ∧
    (forgotPassword { users := [], nextId := 1 }
      { email := .str "b@x.com" } 0 "123456" true true).1 =
      .ok "If email exists, OTP sent." ∧
    (forgotPassword
      { users := [{ id := 1, email := "b@x.com",
                    password_hash := bcryptHash "pw1234" }], nextId := 2 }
      { email := .str "b@x.com" } 0 "123456" true true).1 ≠
    (forgotPassword { users := [], nextId := 1 }
      { email := .str "b@x.com" } 0 "123456" true true).1 := by
  decide

/-- C2 (amended): with SMTP configured and delivery succeeding, both the
existing-account and unknown-email calls to `forgot-password` report
`success: true`, but the message texts differ — the generic
`If email exists, OTP sent.` body is returned exactly when the email has no
account, so the payloads are not identical and an observer can distinguish
existence from the message. -/
theorem C2_generic_success_flag (db : DB) (body : ReqBody) (now : Nat)
    (otp : String) (he : normEmail body.email ≠ "") :
    ((forgotPassword db body now otp true true).1).isSuccess = true ∧
    ((forgotPassword db body now otp true true).1 =
        .ok "If email exists, OTP sent." ↔
      findByEmail db (normEmail body.email) = none) := by
  unfold forgotPassword
  rw [if_neg he]
  cases hf : findByEmail db (normEmail body.email) <;>
    simp [hf, Resp.isSuccess]

/-- Witness for C2 (amended) at a concrete unknown email. -/
theorem C2_generic_success_flag_witness :
    normEmail (JsValue.str "b@x.com") ≠ "" ∧
    ((forgotPassword { users := [], nextId := 1 }
      { email := .str "b@x.com" } 0 "123456" true true).1).isSuccess =
      true :=
  ⟨by decide,
   (C2_generic_success_flag { users := [], nextId := 1 }
     { email := .str "b@x.com" } 0 "123456" (by decide)).1⟩

/-- C4: the claim says `Expired` is returned exactly when
`now >= expiresAt`, including the instant `now = expiresAt`. The code uses
a strict comparison (`expires < now`): at `now = expiresAt = 1000` the
pending challenge is NOT treated as expired — the candidate is compared
(`Invalid OTP.` here) and an attempt is consumed. -/
theorem C4_counterexample_boundary :
    verifyResetOtp (sampleDB 0) (vbody "a@x.com" "999999") 1000 =
      (.err "Invalid OTP.",
       { users := [{ id := 1, email := "a@x.com",
                     password_hash := bcryptHash "oldpw1",
                     reset_otp_hash := some (bcryptHash "123456"),
                     reset_otp_expires := some 1000,
                     reset_otp_attempts := 1 }], nextId := 2 }) := by
  decide

/-- C4 (amended): for an account with a pending challenge, `verify`
returns `Expired` exactly when `now > expiresAt` (strictly after expiry;
at `now = expiresAt` the challenge is still live), and on the expired path
the attempts counter is not incremented and no state changes. -/
theorem C4_expired_strictly_after {db : DB} {u : User} (e c oh : String)
    (exp now : Nat)
    (he : e ≠ "") (hen : jsLower (jsTrim e) = e)
    (hc : jsTrim c = c) (hcn : c ≠ "")
    (hf : findByEmail db e = some u)
    (hh : u.reset_otp_hash = some oh)
    (hx : u.reset_otp_expires = some exp) :
    ((verifyResetOtp db (vbody e c) now).1 =
        .err "OTP expired. Request again." ↔ exp < now) ∧
    (exp < now →
      verifyResetOtp db (vbody e c) now =
        (.err "OTP expired. Request again.", db)) := by
  constructor
  · constructor
    · intro h
      by_cases hlt : exp < now
      · exact hlt
      · exfalso
        rw [verify_pending e c oh exp now he hen hc hcn hf hh hx hlt] at h
        by_cases ha : 5 ≤ u.reset_otp_attempts
        · simp [ha] at h
        · by_cases hok : bcryptCompare c oh = true <;> simp [ha, hok] at h
    · intro hlt
      rw [verify_expired e c oh exp now he hen hc hcn hf hh hx hlt]
  · intro hlt
    exact verify_expired e c oh exp now he hen hc hcn hf hh hx hlt

/-- Witness for C4 (amended): one tick past expiry the sample challenge
reports `Expired` with the database unchanged. -/
theorem C4_expired_strictly_after_witness :
    (1000 : Nat) < 1001 ∧
    verifyResetOtp (sampleDB 0) (vbody "a@x.com" "123456") 1001 =
      (.err "OTP expired. Request again.", sampleDB 0) :=
  ⟨by decide,
   (@C4_expired_strictly_after (sampleDB 0) (sampleUser 0) "a@x.com"
     "123456" (bcryptHash "123456") 1000 1001 (by decide) (by decide)
     (by decide) (by decide) (by decide) rfl rfl).2 (by decide)⟩

/-- C6: the repository also contains the legacy login router of
`src/unnamed/part_000`, which matches the submitted password against the
stored plaintext `password` column in SQL and returns the entire stored
row — including that plaintext secret — in its success response,
contradicting the claim that login never compares against a stored
plaintext and returns only id and email. -/
theorem C6_legacy_login_leaks_plaintext_row :
    legacyLogin [{ id := 1, email := "c@x.com", password := "hunter77" }]
      "c@x.com" "hunter77" =
      .okRow { id := 1, email := "c@x.com", password := "hunter77" } ∧
    ({ id := 1, email := "c@x.com", password := "hunter77" } :
      LegacyUser).password = "hunter77" := by
  decide

/-- C9: the generator is
`String(Math.floor(100000 + Math.random() * 900000))`, whose value range
is 100000–999999: no draw produces the value 0 (the code `000000`), and
the smallest draw yields the string `100000` — codes with leading zeros
are never generated, refuting the full-range 000000–999999 claim. -/
theorem C9_counterexample_no_leading_zeros :
    (¬ ∃ k : Nat, otpValue k = 0) ∧ generateOtp6 0 = "100000" := by
  constructor
  · rintro ⟨k, hk⟩
    unfold otpValue at hk
    omega
  · decide

/-- C9 (amended): every generated code is the decimal string of a value
drawn from exactly the range 100000–999999 (uniformly, given the uniform
underlying draw): every draw lands in that interval, and every value in
the interval is reachable by some draw. -/
theorem C9_range_100000_999999 :
    (∀ k : Nat, 100000 ≤ otpValue k ∧ otpValue k ≤ 999999 ∧
      generateOtp6 k = toString (otpValue k)) ∧
    (∀ m : Nat, 100000 ≤ m → m ≤ 999999 → ∃ k : Nat, otpValue k = m) := by
  constructor
  · intro k
    have hm : k % 900000 < 900000 := Nat.mod_lt k (by norm_num)
    unfold otpValue
    refine ⟨by omega, by omega, rfl⟩
  · intro m h1 h2
    refine ⟨m - 100000, ?_⟩
    unfold otpValue
    omega

/-- Witness for C9 (amended) at the concrete value 123456. -/
theorem C9_range_witness :
    (100000 : Nat) ≤ 123456 ∧ (123456 : Nat) ≤ 999999 ∧
    ∃ k : Nat, otpValue k = 123456 :=
  ⟨by decide, by decide,
   C9_range_100000_999999.2 123456 (by decide) (by decide)⟩

/-- C3: on a pending, unexpired challenge, `verify` returns `Exhausted`
for every candidate — correct or not, with no state change — once
`attempts >= 5`; below the ceiling it compares the candidate and
increments the attempts counter exactly once whether the comparison
succeeds or fails; consequently five verify calls with a wrong code
starting from a fresh challenge make a sixth call with the correct code
return `Exhausted`. -/
theorem C3_verify_attempt_ceiling {db : DB} {u : User}
    (e c w real oh : String) (exp now : Nat)
    (he : e ≠ "") (hen : jsLower (jsTrim e) = e)
    (hc : jsTrim c = c) (hcn : c ≠ "")
    (hw : jsTrim w = w) (hwn : w ≠ "")
    (hr : jsTrim real = real) (hrn : real ≠ "")
    (hf : findByEmail db e = some u)
    (hh : u.reset_otp_hash = some oh)
    (hx : u.reset_otp_expires = some exp)
    (hexp : ¬ exp < now) :
    (5 ≤ u.reset_otp_attempts →
      verifyResetOtp db (vbody e c) now =
        (.err "Too many attempts. Request new OTP.", db)) ∧
    (u.reset_otp_attempts < 5 →
      verifyResetOtp db (vbody e c) now =
        ((if bcryptCompare c oh then .ok "OTP verified."
          else .err "Invalid OTP."), updateWhere db e incAttempt)) ∧
    (u.reset_otp_attempts = 0 → oh = bcryptHash real → w ≠ real →
      (verifyResetOtp
        (verifyStep e w now (verifyStep e w now (verifyStep e w now
          (verifyStep e w now (verifyStep e w now db))))) (vbody e real)
        now).1 = .err "Too many attempts. Request new OTP.") := by
  refine ⟨?_, ?_, ?_⟩
  · intro ha
    rw [verify_pending e c oh exp now he hen hc hcn hf hh hx hexp,
        if_pos ha]
  · intro ha
    rw [verify_pending e c oh exp now he hen hc hcn hf hh hx hexp,
        if_neg (by omega)]
  · intro ha0 hoh hwr
    have hpres : ∀ v : User, (incAttempt v).email = v.email := fun v => rfl
    have hstep : ∀ (d : DB) (v : User), findByEmail d e = some v →
        v.reset_otp_hash = some oh → v.reset_otp_expires = some exp →
        v.reset_otp_attempts < 5 →
        verifyStep e w now d = updateWhere d e incAttempt := by
      intro d v hfv hhv hxv hav
      unfold verifyStep
      rw [verify_pending e w oh exp now he hen hw hwn hfv hhv hxv hexp,
          if_neg (by omega)]
    have h1 := hstep db u hf hh hx (by omega)
    have hf1 : findByEmail (updateWhere db e incAttempt) e =
        some (incAttempt u) :=
      findByEmail_updateWhere_self incAttempt hpres hf
    have h2 := hstep _ (incAttempt u) hf1 hh hx
      (by show u.reset_otp_attempts + 1 < 5; omega)
    have hf2 := findByEmail_updateWhere_self incAttempt hpres hf1
    have h3 := hstep _ _ hf2 hh hx
      (by show u.reset_otp_attempts + 1 + 1 < 5; omega)
    have hf3 := findByEmail_updateWhere_self incAttempt hpres hf2
    have h4 := hstep _ _ hf3 hh hx
      (by show u.reset_otp_attempts + 1 + 1 + 1 < 5; omega)
    have hf4 := findByEmail_updateWhere_self incAttempt hpres hf3
    have h5 := hstep _ _ hf4 hh hx
      (by show u.reset_otp_attempts + 1 + 1 + 1 + 1 < 5; omega)
    have hf5 := findByEmail_updateWhere_self incAttempt hpres hf4
    rw [h1, h2, h3, h4, h5]
    rw [verify_pending e real oh exp now he hen hr hrn hf5 hh hx hexp]
    rw [if_pos
      (by show 5 ≤ u.reset_otp_attempts + 1 + 1 + 1 + 1 + 1; omega)]

/-- Witness for C3: five wrong guesses against the sample challenge, then
the correct code, yield `Exhausted`. -/
theorem C3_verify_attempt_ceiling_witness :
    (verifyResetOtp
      (verifyStep "a@x.com" "111111" 500 (verifyStep "a@x.com" "111111" 500
        (verifyStep "a@x.com" "111111" 500 (verifyStep "a@x.com" "111111" 500
          (verifyStep "a@x.com" "111111" 500 (sampleDB 0))))))
      (vbody "a@x.com" "123456") 500).1 =
      .err "Too many attempts. Request new OTP." :=
  (@C3_verify_attempt_ceiling (sampleDB 0) (sampleUser 0) "a@x.com" "111111"
    "111111" "123456" (bcryptHash "123456") 1000 500 (by decide) (by decide)
    (by decide) (by decide) (by decide) (by decide) (by decide) (by decide)
    (by decide) rfl rfl (by decide)).2.2 rfl rfl (by decide)

/-- C5: committing a correct, unexpired OTP with a new password replaces
the stored hash (old password now fails login, new password succeeds and
returns the public identity) and, in the same update, clears the
challenge, so verifying the same OTP afterwards reports
`OTP not requested.` (NoChallengeError). -/
theorem C5_commit_rotates_credential {db : DB} {u : User}
    (e c np oldPw : String) (exp now : Nat)
    (he : e ≠ "") (hen : jsLower (jsTrim e) = e)
    (hc : jsTrim c = c) (hcn : c ≠ "")
    (hnp : np ≠ "") (hop : oldPw ≠ "") (hdiff : oldPw ≠ np)
    (hf : findByEmail db e = some u)
    (hpw : u.password_hash = bcryptHash oldPw)
    (hh : u.reset_otp_hash = some (bcryptHash c))
    (hx : u.reset_otp_expires = some exp)
    (hexp : ¬ exp < now) :
    (login db (cbody e oldPw)).1 = .okUser u.id u.email ∧
    resetPassword db (rbody e c np) now =
      (.ok "Password updated successfully.",
       updateWhere db e (commitUpd (bcryptHash np))) ∧
    (login (updateWhere db e (commitUpd (bcryptHash np)))
      (cbody e oldPw)).1 = .err "Wrong password" ∧
    (login (updateWhere db e (commitUpd (bcryptHash np)))
      (cbody e np)).1 = .okUser u.id u.email ∧
    verifyResetOtp (updateWhere db e (commitUpd (bcryptHash np)))
      (vbody e c) now =
      (.err "OTP not requested.",
       updateWhere db e (commitUpd (bcryptHash np))) := by
  have hpres : ∀ v : User, (commitUpd (bcryptHash np) v).email = v.email :=
    fun v => rfl
  have hf2 := findByEmail_updateWhere_self (commitUpd (bcryptHash np))
    hpres hf
  have hfe : findByEmail (updateWhere db e (commitUpd (bcryptHash np)))
      (jsLower (jsTrim e)) = some (commitUpd (bcryptHash np) u) := by
    rw [hen]
    exact hf2
  have heN : jsLower (jsTrim e) ≠ "" := by
    rw [hen]
    exact he
  have hfe0 : findByEmail db (jsLower (jsTrim e)) = some u := by
    rw [hen]
    exact hf
  refine ⟨?_, ?_, ?_, ?_, ?_⟩
  · rw [login_found e oldPw heN hop hfe0]
    simp [hpw, bcryptCompare_hash_self]
  · exact reset_commit e c np (bcryptHash c) exp now he hen hc hcn hnp hf
      hh hx hexp (bcryptCompare_hash_self c)
  · rw [login_found e oldPw heN hop hfe]
    have hlo : bcryptCompare oldPw (bcryptHash np) = false :=
      bcryptCompare_hash_ne hdiff
    simp [commitUpd, hlo]
  · rw [login_found e np heN hnp hfe]
    simp [commitUpd, bcryptCompare_hash_self]
  · exact verify_nochallenge e c now he hen hc hcn hf2 rfl

/-- Witness for C5: after the sample account commits the reset, the new
password logs in and returns the public identity. -/
theorem C5_commit_rotates_credential_witness :
    (login (updateWhere (sampleDB 0) "a@x.com"
      (commitUpd (bcryptHash "newpw9"))) (cbody "a@x.com" "newpw9")).1 =
      .okUser 1 "a@x.com" :=
  (@C5_commit_rotates_credential (sampleDB 0) (sampleUser 0) "a@x.com"
    "123456" "newpw9" "oldpw1" 1000 500 (by decide) (by decide) (by decide)
    (by decide) (by decide) (by decide) (by decide) (by decide) rfl rfl rfl
    (by decide)).2.2.2.1

/-- C7: for any email whose normalization is non-empty and any password of
length at least 6 not already registered, `register` succeeds and a
subsequent `login` with the same raw credentials succeeds, returning the
id the store assigned at registration. -/
theorem C7_register_then_login (db : DB) (rawE pw : String)
    (he : jsLower (jsTrim rawE) ≠ "")
    (hp : 6 ≤ pw.length)
    (hf : findByEmail db (jsLower (jsTrim rawE)) = none) :
    (register db (cbody rawE pw)).1 = .ok "Account created" ∧
    (login (register db (cbody rawE pw)).2 (cbody rawE pw)).1 =
      .okUser db.nextId (jsLower (jsTrim rawE)) := by
  have hreg := register_new rawE pw he hp hf
  have hpw : pw ≠ "" := by
    intro h
    rw [h] at hp
    simp at hp
  constructor
  · rw [hreg]
  · rw [hreg]
    have hn : db.users.find? (fun v => v.email == jsLower (jsTrim rawE)) =
        none := hf
    have hfind : findByEmail
        { users := db.users ++ [{ id := db.nextId,
                                  email := jsLower (jsTrim rawE),
                                  password_hash := bcryptHash pw }],
          nextId := db.nextId + 1 } (jsLower (jsTrim rawE)) =
        some { id := db.nextId, email := jsLower (jsTrim rawE),
               password_hash := bcryptHash pw } := by
      unfold findByEmail
      rw [find?_snoc_of_none hn]
      simp
    rw [login_found rawE pw he hpw hfind]
    simp [bcryptCompare_hash_self]

/-- Witness for C7: registering ` New@X.com ` with password `secret7` on
an empty store, then logging in with the same raw inputs, returns id 1 and
the normalized email. -/
theorem C7_register_then_login_witness :
    (register { users := [], nextId := 1 }
      (cbody " New@X.com " "secret7")).1 = .ok "Account created" ∧
    (login (register { users := [], nextId := 1 }
      (cbody " New@X.com " "secret7")).2
      (cbody " New@X.com " "secret7")).1 = .okUser 1 "new@x.com" :=
  C7_register_then_login { users := [], nextId := 1 } " New@X.com "
    "secret7" (by decide) (by decide) (by decide)

/-- C8: a second `forgot-password` before the first code is verified
overwrites the challenge with the new code's hash and resets attempts to
0; verifying the superseded first code then fails with `Invalid OTP.`,
and verifying the new code (attempts now 1) succeeds. -/
theorem C8_second_request_supersedes {db : DB} {u : User}
    (e otp1 otp2 : String) (now : Nat)
    (he : e ≠ "") (hen : jsLower (jsTrim e) = e)
    (h1t : jsTrim otp1 = otp1) (h1n : otp1 ≠ "")
    (h2t : jsTrim otp2 = otp2) (h2n : otp2 ≠ "")
    (hne : otp1 ≠ otp2)
    (hf : findByEmail db e = some u) :
    findByEmail
      (forgotPassword
        (forgotPassword db { email := .str e } now otp1 true true).2
        { email := .str e } now otp2 true true).2 e =
      some (issueUpd (bcryptHash otp2) (now + 5 * 60 * 1000)
        (issueUpd (bcryptHash otp1) (now + 5 * 60 * 1000) u)) ∧
    (verifyResetOtp
      (forgotPassword
        (forgotPassword db { email := .str e } now otp1 true true).2
        { email := .str e } now otp2 true true).2 (vbody e otp1) now).1 =
      .err "Invalid OTP." ∧
    (verifyResetOtp
      (verifyResetOtp
        (forgotPassword
          (forgotPassword db { email := .str e } now otp1 true true).2
          { email := .str e } now otp2 true true).2 (vbody e otp1) now).2
      (vbody e otp2) now).1 = .ok "OTP verified." := by
  have hpres1 : ∀ v : User,
      (issueUpd (bcryptHash otp1) (now + 5 * 60 * 1000) v).email =
        v.email := fun v => rfl
  have hpres2 : ∀ v : User,
      (issueUpd (bcryptHash otp2) (now + 5 * 60 * 1000) v).email =
        v.email := fun v => rfl
  have hpresI : ∀ v : User, (incAttempt v).email = v.email := fun v => rfl
  have hfg1 := forgot_found e otp1 now he hen hf
  have s1 : (forgotPassword db { email := .str e } now otp1 true true).2 =
      updateWhere db e (issueUpd (bcryptHash otp1) (now + 5 * 60 * 1000)) :=
    by rw [hfg1]
  have hf1 := findByEmail_updateWhere_self
    (issueUpd (bcryptHash otp1) (now + 5 * 60 * 1000)) hpres1 hf
  have hfg2 := forgot_found e otp2 now he hen hf1
  rw [s1]
  have s2 : (forgotPassword
      (updateWhere db e (issueUpd (bcryptHash otp1) (now + 5 * 60 * 1000)))
      { email := .str e } now otp2 true true).2 =
      updateWhere
        (updateWhere db e (issueUpd (bcryptHash otp1) (now + 5 * 60 * 1000)))
        e (issueUpd (bcryptHash otp2) (now + 5 * 60 * 1000)) := by
    rw [hfg2]
  rw [s2]
  have hf2 := findByEmail_updateWhere_self
    (issueUpd (bcryptHash otp2) (now + 5 * 60 * 1000)) hpres2 hf1
  have hver1 := verify_pending e otp1 (bcryptHash otp2)
    (now + 5 * 60 * 1000) now he hen h1t h1n hf2 rfl rfl (by omega)
  have ha1 : ¬ 5 ≤ User.reset_otp_attempts
      (issueUpd (bcryptHash otp2) (now + 5 * 60 * 1000)
        (issueUpd (bcryptHash otp1) (now + 5 * 60 * 1000) u)) := by
    simp [issueUpd]
  refine ⟨hf2, ?_, ?_⟩
  · rw [hver1, if_neg ha1]
    simp [bcryptCompare_hash_ne hne]
  · have s3 : (verifyResetOtp
        (updateWhere
          (updateWhere db e
            (issueUpd (bcryptHash otp1) (now + 5 * 60 * 1000)))
          e (issueUpd (bcryptHash otp2) (now + 5 * 60 * 1000)))
        (vbody e otp1) now).2 =
        updateWhere
          (updateWhere
            (updateWhere db e
              (issueUpd (bcryptHash otp1) (now + 5 * 60 * 1000)))
            e (issueUpd (bcryptHash otp2) (now + 5 * 60 * 1000)))
          e incAttempt := by
      rw [hver1, if_neg ha1]
    rw [s3]
    have hf3 := findByEmail_updateWhere_self incAttempt hpresI hf2
    have hver2 := verify_pending e otp2 (bcryptHash otp2)
      (now + 5 * 60 * 1000) now he hen h2t h2n hf3 rfl rfl (by omega)
    have ha2 : ¬ 5 ≤ User.reset_otp_attempts
        (incAttempt (issueUpd (bcryptHash otp2) (now + 5 * 60 * 1000)
          (issueUpd (bcryptHash otp1) (now + 5 * 60 * 1000) u))) := by
      simp [incAttempt, issueUpd]
    rw [hver2, if_neg ha2]
    simp [bcryptCompare_hash_self]

/-- Witness for C8: issue `111111`, re-issue `222222`, verify `111111`
(fails), then verify `222222` (succeeds) on a concrete one-account
store. -/
theorem C8_second_request_supersedes_witness :
    (verifyResetOtp
      (verifyResetOtp
        (forgotPassword
          (forgotPassword
            { users := [{ id := 1, email := "a@x.com",
                          password_hash := bcryptHash "pw1234" }],
              nextId := 2 }
            { email := .str "a@x.com" } 0 "111111" true true).2
          { email := .str "a@x.com" } 0 "222222" true true).2
        (vbody "a@x.com" "111111") 0).2
      (vbody "a@x.com" "222222") 0).1 = .ok "OTP verified." :=
  (@C8_second_request_supersedes
    { users := [{ id := 1, email := "a@x.com",
                  password_hash := bcryptHash "pw1234" }], nextId := 2 }
    { id := 1, email := "a@x.com", password_hash := bcryptHash "pw1234" }
    "a@x.com" "111111" "222222" 0 (by decide) (by decide) (by decide)
    (by decide) (by decide) (by decide) (by decide) (by decide)).2.2

/-- C10: for every request body — fields missing, null, numeric, boolean,
arrays or objects included — each endpoint coerces its fields to strings
(`String(x || "")`, total on every JSON shape) and the input-validation
step yields exactly the structured `{success:false, message}` result when
a required coerced field is empty, never a fault: the validation error
response is characterized for all bodies. -/
theorem C10_validation_total_structured (db : DB) (body : ReqBody)
    (now : Nat) (otp : String) (smtpOk deliveryOk : Bool) :
    (register db body = (.err "Email & password required", db) ↔
      (normEmail body.email = "" ∨ coerceOr body.password = "")) ∧
    (login db body = (.err "Email & password required", db) ↔
      (normEmail body.email = "" ∨ coerceOr body.password = "")) ∧
    (forgotPassword db body now otp smtpOk deliveryOk =
        (.err "Email required", db) ↔ normEmail body.email = "") ∧
    (verifyResetOtp db body now = (.err "Email & OTP required", db) ↔
      (normEmail body.email = "" ∨ jsTrim (coerceOr body.otp) = "")) ∧
    (resetPassword db body now =
        (.err "Email, OTP, newPassword required", db) ↔
      (normEmail body.email = "" ∨ jsTrim (coerceOr body.otp) = "" ∨
        coerceOr body.newPassword = "")) := by
  refine ⟨?_, ?_, ?_, ?_, ?_⟩
  · constructor
    · intro h
      by_contra hno
      rw [not_or] at hno
      simp only [register] at h
      rw [if_neg (not_or.mpr hno)] at h
      split at h
      · simp at h
      · split at h <;> simp at h
    · intro h
      simp only [register]
      rw [if_pos h]
  · constructor
    · intro h
      by_contra hno
      rw [not_or] at hno
      simp only [login] at h
      rw [if_neg (not_or.mpr hno)] at h
      split at h
      · simp at h
      · split at h <;> simp at h
    · intro h
      simp only [login]
      rw [if_pos h]
  · constructor
    · intro h
      by_contra hno
      simp only [forgotPassword] at h
      rw [if_neg hno] at h
      split at h
      · simp at h
      · split at h
        · simp at h
        · split at h <;> simp at h
    · intro h
      simp only [forgotPassword]
      rw [if_pos h]
  · constructor
    · intro h
      by_contra hno
      rw [not_or] at hno
      simp only [verifyResetOtp] at h
      rw [if_neg (not_or.mpr hno)] at h
      split at h
      · simp at h
      · split at h
        · split at h
          · simp at h
          · split at h
            · simp at h
            · split at h <;> simp at h
        · simp at h
    · intro h
      simp only [verifyResetOtp]
      rw [if_pos h]
  · constructor
    · intro h
      by_contra hno
      simp only [not_or] at hno
      simp only [resetPassword] at h
      rw [if_neg (by tauto)] at h
      split at h
      · simp at h
      · split at h
        · split at h
          · simp at h
          · split at h <;> simp at h
        · simp at h
    · intro h
      simp only [resetPassword]
      rw [if_pos h]

/-- Witness for C10: a body whose fields are null / number / empty array /
object coerces without failing and draws the structured validation
errors. -/
theorem C10_validation_total_structured_witness :
    register { users := [], nextId := 1 }
      { email := .null, password := .num 0, otp := .arr [],
        newPassword := .obj } =
      (.err "Email & password required", { users := [], nextId := 1 }) ∧
    verifyResetOtp { users := [], nextId := 1 }
      { email := .null, password := .num 0, otp := .arr [],
        newPassword := .obj } 0 =
      (.err "Email & OTP required", { users := [], nextId := 1 }) :=
  ⟨(C10_validation_total_structured { users := [], nextId := 1 }
      { email := .null, password := .num 0, otp := .arr [],
        newPassword := .obj } 0 "123456" true true).1.mpr
    (Or.inl (by decide)),
   (C10_validation_total_structured { users := [], nextId := 1 }
      { email := .null, password := .num 0, otp := .arr [],
        newPassword := .obj } 0 "123456" true true).2.2.2.1.mpr
    (Or.inl (by decide))⟩
